import Mathlib

/-!
Verification development for the hindsight repository's evidence-grounded
reasoning engine.

The definitions below are a shallow embedding of
`hindsight_api/engine/reflect/agent.py` (the reasoning loop, its tool
dispatcher and its evidence registry) and of
`hindsight_api/engine/mental_models/structural.py` (the structural
deriver).  Python dictionaries are embedded as structures whose optional
fields model the keys the code actually reads (`none` models an absent
key); Python sets of strings are embedded as duplicate-free lists built by
append-if-absent; asynchronous collaborator calls are pure functions
returning `Except String _`, where `Except.error e` models a raised
exception carrying `str(e)`; the external LLM is an oracle function
indexed by the number of LLM invocations made so far, so that every
possible sequence of LLM behaviours is quantified over.  Wall-clock
durations (`duration_ms` fields, measured with `time.time()` in the
source) are not observable in the embedding and are uniformly 0.
-/

namespace Hindsight

/-- Arguments dictionary of one LLM tool call.  Each field models one key
that `_execute_tool` or `_process_done_tool` reads with `args.get(...)`. -/
structure ObsArg where
  title : Option String := none
  text : Option String := none
  memory_ids : Option (List String) := none
deriving Repr, DecidableEq

/-- Arguments of an `LLMToolCall` (`tc.arguments` in `agent.py`). -/
structure ToolArgs where
  model_id : Option String := none
  query : Option String := none
  max_tokens : Option Nat := none
  name : Option String := none
  description : Option String := none
  memory_ids : Option (List String) := none
  depth : Option String := none
  answer : Option String := none
  model_ids : Option (List String) := none
  observations : Option (List ObsArg) := none
deriving Repr, DecidableEq

/-- One tool call returned by the LLM (`LLMToolCall` in
`response_models.py`, used by `agent.py` through `tc.id`, `tc.name`,
`tc.arguments`). -/
structure LLMToolCall where
  id : String
  name : String
  arguments : ToolArgs := {}
deriving Repr, DecidableEq

/-- One entry of a `recall` result's `memories` array; the loop only reads
its optional `id` key. -/
structure MemoryEntry where
  id : Option String := none
deriving Repr, DecidableEq

/-- One entry of a model-listing result; the loop only reads its optional
`id` key. -/
structure ModelEntry where
  id : Option String := none
deriving Repr, DecidableEq

/-- Result dictionary of a tool execution.  Fields model exactly the keys
`run_reflect_agent` inspects: `error`, `model_id` (learn), `memories`
(recall), `found`/`model`/`models` (model lookups).  `found` models the
truthiness of `output.get("found")`. -/
structure ToolOutput where
  error : Option String := none
  model_id : Option String := none
  memories : Option (List MemoryEntry) := none
  found : Bool := false
  model : Option ModelEntry := none
  models : Option (List ModelEntry) := none
deriving Repr, DecidableEq

/-- Structured error payload: the `\x7b"error": msg\x7d` dictionaries the
dispatcher returns for invalid or unknown invocations. -/
def errOut (msg : String) : ToolOutput := { error := some msg }

/-- Python truthiness of an optional string value: an absent key and an
empty string are both falsy (`if not args.get("query")`). -/
def truthyStr : Option String → Option String
  | none => none
  | some s => if s = "" then none else some s

/-- Python `str.strip()`: removes leading and trailing whitespace.
Implemented by structural recursion on the character list so that concrete
runs evaluate inside the kernel. -/
def pstrip (s : String) : String :=
  ⟨((s.data.dropWhile Char.isWhitespace).reverse.dropWhile Char.isWhitespace).reverse⟩

/-- Input to the `learn` collaborator (`MentalModelInput` in
`reflect/models.py`, constructed by `_execute_tool`). -/
structure MentalModelInput where
  name : String
  description : String
deriving Repr, DecidableEq

/-- Conversation message.  The system-prompt text produced by
`build_system_prompt_for_tools` is never inspected by any claim, so the
system message is a contentless marker; tool-result contents are kept as
structured `ToolOutput` values rather than their `json.dumps` image. -/
inductive Msg where
  | system : Msg
  | user (content : String) : Msg
  | assistant (tool_calls : List LLMToolCall) : Msg
  | tool (tool_call_id : String) (output : ToolOutput) : Msg
deriving Repr, DecidableEq

/-- Response of `llm_config.call_with_tools`: the list of requested tool
calls plus optional plain-text content. -/
structure LLMToolResponse where
  tool_calls : List LLMToolCall := []
  content : Option String := none
deriving Repr, DecidableEq

/-- One audit-trace record of a tool invocation (`ToolCall` in
`reflect/models.py`; its `input` dict `\x7b"tool": name, **arguments\x7d`
is kept as the name paired with the structured arguments). -/
structure ToolCall where
  tool : String
  input : ToolArgs
  output : ToolOutput
  duration_ms : Nat
deriving Repr, DecidableEq

/-- One entry of `context_history`, kept for the fallback final prompt
(`\x7b"tool", "input", "output"\x7d`). -/
structure ContextEntry where
  tool : String
  input : ToolArgs
  output : ToolOutput
deriving Repr, DecidableEq

/-- One LLM-trace record (`LLMCall` in `reflect/models.py`); durations are
wall-clock in the source and uniformly 0 here. -/
structure LLMCall where
  scope : String
  duration_ms : Nat
deriving Repr, DecidableEq

/-- Modelled from the spec: `Observation` of `reflect/models.py` (the file
is not under `src/`): a titled text block with its own filtered citation
list, as produced by `_process_done_tool` in observations mode. -/
structure Observation where
  title : String
  text : String
  memory_ids : List String
deriving Repr, DecidableEq

/-- Modelled from the spec: `ReflectAgentResult` of `reflect/models.py`
(the file is not under `src/`): final answer text or observations, the
cited identifier sets, iteration count and traces, with the field defaults
the call sites of `agent.py` rely on. -/
structure ReflectAgentResult where
  text : String
  observations : List Observation := []
  iterations : Nat
  tools_called : Nat
  mental_models_created : List String
  tool_trace : List ToolCall
  llm_trace : List LLMCall
  used_memory_ids : List String := []
  used_model_ids : List String := []
deriving Repr, DecidableEq

/-- External collaborators and oracles of one reasoning session.  The LLM
oracles take the count of LLM invocations made so far, modelling an
arbitrary stateful external model; `call_with_tools` also receives the
conversation and whether tool use is required (`tool_choice="required"`),
and `call_final` receives the accumulated `context_history` from which
`build_final_prompt` builds the forced-final prompt.  `schedule` gives the
completion order of each concurrent fan-out round (see `gather_results`). -/
structure AgentEnv where
  call_with_tools : Nat → List Msg → Bool → Except String LLMToolResponse
  call_final : Nat → List ContextEntry → String
  lookup_fn : Option String → Except String ToolOutput
  recall_fn : String → Nat → Except String ToolOutput
  expand_fn : List String → String → Except String ToolOutput
  learn_fn : Option (MentalModelInput → Except String ToolOutput)
  schedule : Nat → List Nat

/-- Embedding of `_execute_tool`: dispatch by tool name with per-tool
argument validation.  Validation failures, a disabled `learn` tool and an
unknown tool name return an `\x7b"error": ...\x7d` payload (`Except.ok` of
an output with `error` set); only a collaborator's own exception yields
`Except.error`. -/
def execute_tool (env : AgentEnv) (tool_name : String) (args : ToolArgs) :
    Except String ToolOutput :=
  if tool_name = "list_mental_models" then
    env.lookup_fn none
  else if tool_name = "get_mental_model" then
    match truthyStr args.model_id with
    | none => .ok (errOut "get_mental_model requires model_id")
    | some mid => env.lookup_fn (some mid)
  else if tool_name = "recall" then
    match truthyStr args.query with
    | none => .ok (errOut "recall requires a query parameter")
    | some q => env.recall_fn q (args.max_tokens.getD 2048)
  else if tool_name = "learn" then
    match env.learn_fn with
    | none => .ok (errOut "learn tool is not available")
    | some learn =>
      match truthyStr args.name, truthyStr args.description with
      | some nm, some desc => learn ⟨nm, desc⟩
      | _, _ => .ok (errOut "learn requires name and description")
  else if tool_name = "expand" then
    let memory_ids := args.memory_ids.getD []
    if memory_ids = [] then .ok (errOut "expand requires memory_ids")
    else env.expand_fn memory_ids (args.depth.getD "chunk")
  else
    .ok (errOut ("Unknown tool: " ++ tool_name))

/-- Memory identifiers one tool result surfaces into the Evidence
Registry: `recall` outputs contribute every `memories` entry that has an
`id` key (lines 317-320 of `agent.py`). -/
def extract_memory_ids (tool_name : String) (output : ToolOutput) : List String :=
  if tool_name == "recall" then
    match output.memories with
    | some mems => mems.filterMap (fun m => m.id)
    | none => []
  else []

/-- Model identifiers one tool result surfaces into the Evidence Registry:
for `list_mental_models` / `get_mental_model` outputs, a truthy
`output["model"]["id"]` when `found` is truthy and a `model` key is
present, else every `models` entry that has an `id` key (lines 323-331 of
`agent.py`). -/
def extract_model_ids (tool_name : String) (output : ToolOutput) : List String :=
  if tool_name == "list_mental_models" || tool_name == "get_mental_model" then
    if output.found && output.model.isSome then
      match output.model.bind (fun m => truthyStr m.id) with
      | some mid => [mid]
      | none => []
    else
      match output.models with
      | some ms => ms.filterMap (fun m => m.id)
      | none => []
  else []

/-- Addition of one element to a Python `set[str]`, modelled as
append-if-absent on a duplicate-free list. -/
def add_id (ids : List String) (x : String) : List String :=
  if x ∈ ids then ids else ids ++ [x]

/-- Addition of several elements to a Python `set[str]`. -/
def add_ids (ids : List String) (xs : List String) : List String :=
  xs.foldl add_id ids

/-- Mutable state of one reasoning session, threaded through the loop of
`run_reflect_agent`: the conversation, the accumulators and the Evidence
Registry (`available_memory_ids` / `available_model_ids`).  `llm_calls`
counts LLM invocations made so far and indexes the LLM oracles.  The
`tool_trace_summary` list of the source feeds logging only and is
omitted. -/
structure AgentState where
  messages : List Msg
  mental_models_created : List String
  total_tools_called : Nat
  tool_trace : List ToolCall
  context_history : List ContextEntry
  available_memory_ids : List String
  available_model_ids : List String
  llm_trace : List LLMCall
  llm_calls : Nat

/-- Session output together with the `forced` flag the source passes to
`_log_completion` at the corresponding return site. -/
structure AgentOutcome where
  result : ReflectAgentResult
  forced : Bool
deriving Repr, DecidableEq

/-- Appends of a tool-result message and the audit records for one
executed tool call (lines 333-363 of `agent.py`). -/
def append_result (st : AgentState) (tc : LLMToolCall) (output : ToolOutput)
    (duration_ms : Nat) : AgentState :=
  { st with
    messages := st.messages ++ [Msg.tool tc.id output],
    tool_trace := st.tool_trace ++ [⟨tc.name, tc.arguments, output, duration_ms⟩],
    context_history := st.context_history ++ [⟨tc.name, tc.arguments, output⟩] }

/-- Processing of one `(tc, result_data)` pair of a fan-out round (lines
304-363 of `agent.py`): an exception becomes an `\x7b"error": ...\x7d`
payload with duration 0; a returned output first feeds the
`mental_models_created` tracker and the Evidence Registry, then is
appended to the conversation and the traces. -/
def process_tool_result (st : AgentState) (tc : LLMToolCall)
    (result_data : Except String ToolOutput) : AgentState :=
  match result_data with
  | .error e => append_result st tc (errOut e) 0
  | .ok output =>
    let st :=
      if tc.name == "learn" && output.model_id.isSome then
        { st with mental_models_created := st.mental_models_created ++ output.model_id.toList }
      else st
    let st := { st with
      available_memory_ids := add_ids st.available_memory_ids (extract_memory_ids tc.name output),
      available_model_ids := add_ids st.available_model_ids (extract_model_ids tc.name output) }
    append_result st tc output 0

/-- One scheduled completion sequence of a fan-out round: the tasks finish
in the order given by `order`, each yielding its request index paired with
its outcome.  Collaborators are pure, so an outcome does not depend on
when its task runs. -/
def complete_in_order (calls : List LLMToolCall)
    (exec : LLMToolCall → Except String ToolOutput) (order : List Nat) :
    List (Nat × Except String ToolOutput) :=
  order.filterMap (fun i => calls[i]?.map (fun tc => (i, exec tc)))

/-- Model of `asyncio.gather(*tasks, return_exceptions=True)`: whatever
order the tasks complete in, the gathered list re-slots each outcome at
its request index. -/
def gather_results (calls : List LLMToolCall)
    (exec : LLMToolCall → Except String ToolOutput) (order : List Nat) :
    List (Except String ToolOutput) :=
  (List.range calls.length).filterMap
    (fun i => (complete_in_order calls exec order).lookup i)

/-- Embedding of one concurrent tool round (lines 280-363 of `agent.py`):
append the assistant message carrying the tool calls, execute the calls
concurrently under completion order `order`, bump `total_tools_called`,
and fold the gathered results into the state in request order. -/
def execute_round (env : AgentEnv) (st : AgentState)
    (other_tools : List LLMToolCall) (order : List Nat) : AgentState :=
  let st := { st with
    messages := st.messages ++ [Msg.assistant other_tools],
    total_tools_called := st.total_tools_called + other_tools.length }
  let tool_results :=
    gather_results other_tools (fun tc => execute_tool env tc.name tc.arguments) order
  (other_tools.zip tool_results).foldl (fun s p => process_tool_result s p.1 p.2) st

/-- Per-observation citation filtering of `_process_done_tool` in
observations mode: keeps the cited ids present in the registry (in cited
order, duplicates kept, as the source list comprehension does) and extends
the deduplicated `used_memory_ids` accumulator. -/
def validate_obs_step (available : List String)
    (acc : List String × List String) (mid : String) : List String × List String :=
  if mid ∈ available then
    (acc.1 ++ [mid], if mid ∈ acc.2 then acc.2 else acc.2 ++ [mid])
  else acc

/-- Fold of `validate_obs_step` over the cited ids of one observation,
starting from an empty validated list and the accumulated `used` list. -/
def validate_obs_ids (available : List String) (mids : List String)
    (used : List String) : List String × List String :=
  mids.foldl (validate_obs_step available) ([], used)

/-- Observations-mode processing loop of `_process_done_tool` (lines
408-427): builds the validated observations and the session-wide
`used_memory_ids` list. -/
def process_obs_step (available : List String)
    (acc : List Observation × List String) (obs_data : ObsArg) :
    List Observation × List String :=
  let v := validate_obs_ids available (obs_data.memory_ids.getD []) acc.2
  (acc.1 ++ [⟨obs_data.title.getD "", obs_data.text.getD "", v.1⟩], v.2)

/-- Observations-mode processing loop of `_process_done_tool` (lines
408-427): builds the validated observations and the session-wide
`used_memory_ids` list. -/
def process_observations (available : List String) (obs_args : List ObsArg) :
    List Observation × List String :=
  obs_args.foldl (process_obs_step available) ([], [])

/-- Text assembly from observations (lines 429-436 of `agent.py`). -/
def observations_text (obs : List Observation) : String :=
  String.intercalate "\n\n"
    (obs.map (fun o => if o.title ≠ "" then "## " ++ o.title ++ "\n" ++ o.text else o.text))

/-- Embedding of `_process_done_tool`: builds the final result from the
accepted `done` call, filtering every cited identifier against the
Evidence Registry; identifiers not in the registry are dropped without any
error channel. -/
def process_done_tool (done_call : LLMToolCall) (output_mode : String)
    (available_memory_ids available_model_ids : List String) (iterations : Nat)
    (total_tools_called : Nat) (mental_models_created : List String)
    (tool_trace : List ToolCall) (llm_trace : List LLMCall) : ReflectAgentResult :=
  let args := done_call.arguments
  if output_mode == "observations" && args.observations.isSome then
    let p := process_observations available_memory_ids (args.observations.getD [])
    { text := observations_text p.1,
      observations := p.1,
      iterations := iterations,
      tools_called := total_tools_called,
      mental_models_created := mental_models_created,
      tool_trace := tool_trace,
      llm_trace := llm_trace,
      used_memory_ids := p.2 }
  else
    let answer0 := pstrip (args.answer.getD "")
    let answer := if answer0 = "" then "No answer provided." else answer0
    { text := answer,
      iterations := iterations,
      tools_called := total_tools_called,
      mental_models_created := mental_models_created,
      tool_trace := tool_trace,
      llm_trace := llm_trace,
      used_memory_ids := (args.memory_ids.getD []).filter
        (fun mid => decide (mid ∈ available_memory_ids)),
      used_model_ids := (args.model_ids.getD []).filter
        (fun mid => decide (mid ∈ available_model_ids)) }

/-- Synthetic tool-result error used when an early `done` is rejected
(line 257 of `agent.py`). -/
def evidence_required_message : String :=
  "You must call recall() or list_mental_models() to gather evidence before providing your final answer."

/-- Fallthrough answer text of the loop's unreachable tail (line 366). -/
def iteration_limit_message : String :=
  "I was unable to formulate a complete answer within the iteration limit."

/-- Forced plain-text finalization (the repeated block at lines 122-144,
176-196 and 211-232 of `agent.py`): one `call` LLM invocation on the final
prompt built from the accumulated `context_history`, returned with
`forced=True`. -/
def forced_final (env : AgentEnv) (st : AgentState) (iterations : Nat) : AgentOutcome :=
  let response := env.call_final st.llm_calls st.context_history
  { result :=
    { text := pstrip response,
      iterations := iterations,
      tools_called := st.total_tools_called,
      mental_models_created := st.mental_models_created,
      tool_trace := st.tool_trace,
      llm_trace := st.llm_trace ++ [⟨"final", 0⟩] },
    forced := true }

/-- Truthiness of the Evidence Registry
(`bool(available_memory_ids) or bool(available_model_ids)`). -/
def has_gathered_evidence (st : AgentState) : Bool :=
  !st.available_memory_ids.isEmpty || !st.available_model_ids.isEmpty

/-- State after a failed `call_with_tools` invocation: the oracle index
advances and an `agent_N_err` trace entry is recorded (lines 166-168). -/
def llm_err_state (st : AgentState) (iter : Nat) : AgentState :=
  { st with
    llm_calls := st.llm_calls + 1,
    llm_trace := st.llm_trace ++ [⟨"agent_" ++ toString (iter + 1) ++ "_err", 0⟩] }

/-- State after a successful `call_with_tools` invocation: the oracle
index advances and an `agent_N` trace entry is recorded (line 163). -/
def llm_ok_state (st : AgentState) (iter : Nat) : AgentState :=
  { st with
    llm_calls := st.llm_calls + 1,
    llm_trace := st.llm_trace ++ [⟨"agent_" ++ toString (iter + 1), 0⟩] }

/-- State after the evidence guardrail rejects an early `done` (lines
244-261): only the conversation changes, by the assistant message carrying
the rejected call and the synthetic tool-result error; the Evidence
Registry, the traces and the tool counters are untouched. -/
def reject_done_state (st : AgentState) (done_call : LLMToolCall) : AgentState :=
  { st with
    messages := st.messages ++
      [Msg.assistant [done_call],
       Msg.tool done_call.id (errOut evidence_required_message)] }

/-- Embedding of the iteration loop of `run_reflect_agent` (lines
118-375).  The first argument is the number of loop iterations still
available (`max_iterations - iteration`); `iter` is the source's 0-based
`iteration` counter.  Remaining of `0` is the `for` loop's fallthrough
("Should not reach here", only reachable with `max_iterations = 0`);
`remaining = 0` inside the body is `is_last`; the source guard
`iteration < max_iterations - 1` of the two evidence guardrails is
`0 < remaining` under this encoding. -/
def reflect_loop (env : AgentEnv) (output_mode : String) :
    Nat → Nat → AgentState → AgentOutcome
  | 0, iter, st =>
    { result :=
      { text := iteration_limit_message,
        iterations := iter,
        tools_called := st.total_tools_called,
        mental_models_created := st.mental_models_created,
        tool_trace := st.tool_trace,
        llm_trace := st.llm_trace },
      forced := true }
  | remaining + 1, iter, st =>
    if remaining == 0 then
      -- is_last: force a text response, no tools offered
      forced_final env st (iter + 1)
    else
      match env.call_with_tools st.llm_calls st.messages (iter == 0) with
      | .error _e =>
        let st := llm_err_state st iter
        if !has_gathered_evidence st && decide (0 < remaining) then
          -- no evidence gathered yet and iterations remain: retry
          reflect_loop env output_mode remaining (iter + 1) st
        else
          forced_final env st (iter + 1)
      | .ok result =>
        let st := llm_ok_state st iter
        if result.tool_calls.isEmpty then
          match truthyStr result.content with
          | some c =>
            { result :=
              { text := pstrip c,
                iterations := iter + 1,
                tools_called := st.total_tools_called,
                mental_models_created := st.mental_models_created,
                tool_trace := st.tool_trace,
                llm_trace := st.llm_trace },
              forced := false }
          | none => forced_final env st (iter + 1)
        else
          match result.tool_calls.find? (fun tc => tc.name == "done") with
          | some done_call =>
            if !has_gathered_evidence st && decide (0 < remaining) then
              -- guardrail: reject the early done and continue
              reflect_loop env output_mode remaining (iter + 1) (reject_done_state st done_call)
            else
              { result := process_done_tool done_call output_mode
                  st.available_memory_ids st.available_model_ids (iter + 1)
                  st.total_tools_called st.mental_models_created st.tool_trace st.llm_trace,
                forced := false }
          | none =>
            let other_tools := result.tool_calls.filter (fun tc => tc.name != "done")
            let st :=
              if other_tools.isEmpty then st
              else execute_round env st other_tools (env.schedule st.llm_calls)
            reflect_loop env output_mode remaining (iter + 1) st

/-- Initial session state (lines 73-88 of `agent.py`). -/
def initial_state (query : String) : AgentState :=
  { messages := [Msg.system, Msg.user query],
    mental_models_created := [],
    total_tools_called := 0,
    tool_trace := [],
    context_history := [],
    available_memory_ids := [],
    available_model_ids := [],
    llm_trace := [],
    llm_calls := 0 }

/-- Embedding of `run_reflect_agent`: runs the loop from iteration 0 with
the full `max_iterations` budget.  The tools list built by
`get_reflect_tools` only shapes the request to the LLM and is absorbed by
the oracle. -/
def run_reflect_agent (env : AgentEnv) (query : String) (max_iterations : Nat)
    (output_mode : String) : AgentOutcome :=
  reflect_loop env output_mode max_iterations 0 (initial_state query)

/-- Memory identifiers surfaced by the tool results recorded in a trace;
the union, in order, of what each recorded invocation contributed to the
Evidence Registry. -/
def surfaced_memory_ids (trace : List ToolCall) : List String :=
  (trace.map (fun t => extract_memory_ids t.tool t.output)).flatten

/-- Model identifiers surfaced by the tool results recorded in a trace. -/
def surfaced_model_ids (trace : List ToolCall) : List String :=
  (trace.map (fun t => extract_model_ids t.tool t.output)).flatten

/-- Modelled from the spec: `StructuralModelTemplate` of
`mental_models/models.py` (the file is not under `src/`): a topic template
with name, description and seed queries; its `id` is falsy (empty) until
`derive_structural_models` assigns one. -/
structure StructuralModelTemplate where
  id : String := ""
  name : String
  description : String := ""
  initial_probes : List String := []
deriving Repr, DecidableEq

/-- Structured LLM response of the structural derivation call
(`StructuralDerivationResponse` in `structural.py`). -/
structure StructuralDerivationResponse where
  templates : List StructuralModelTemplate
deriving Repr, DecidableEq

/-- One existing model stub passed to `derive_structural_models`: a dict
with the `id`, `name` and `description` keys the function reads. -/
structure ExistingModel where
  id : String
  name : String
  description : String := ""
deriving Repr, DecidableEq

/-- Stable-id assignment of `derive_structural_models` (lines 142-145 of
`structural.py`): a template with a falsy id gets its name lowercased and
hyphenated. -/
def assign_template_id (t : StructuralModelTemplate) : StructuralModelTemplate :=
  if t.id = "" then
    { t with id := ((t.name.toLower).replace " " "-").replace "_" "-" }
  else t

/-- Embedding of `derive_structural_models` (`structural.py`, lines
104-159).  The structured LLM call is an oracle from the mission and the
existing stubs (the prompt strings built from them are opaque to every
claim).  Returns the templates to create/keep and the ids of existing
models to remove: exactly the existing models whose name is not among the
returned template names. -/
def derive_structural_models
    (llm_call : String → List ExistingModel → StructuralDerivationResponse)
    (mission : String) (existing_models : List ExistingModel) :
    List StructuralModelTemplate × List String :=
  let result := llm_call mission existing_models
  let templates := result.templates.map assign_template_id
  let models_to_remove :=
    if existing_models.isEmpty then []
    else
      let returned_names := templates.map (fun t => t.name)
      (existing_models.filter (fun m => !(returned_names.contains m.name))).map
        (fun m => m.id)
  (templates, models_to_remove)

/-- Output dictionary fed back to the model for one gathered outcome: the
returned dict itself, or the `\x7b"error": str(e)\x7d` payload synthesized
for an exception captured by the fan-in (lines 305-307 of `agent.py`). -/
def outcome_output : Except String ToolOutput → ToolOutput
  | .ok output => output
  | .error e => errOut e

/-- Groundedness of the session state: the Evidence Registry holds only
identifiers surfaced by the tool invocations recorded in the trace. -/
def registry_grounded (st : AgentState) : Prop :=
  st.available_memory_ids ⊆ surfaced_memory_ids st.tool_trace ∧
  st.available_model_ids ⊆ surfaced_model_ids st.tool_trace

/-- Citation soundness of a session result: every cited identifier — in
`used_memory_ids`, in `used_model_ids` and in each returned observation —
was surfaced by a tool invocation recorded in the result's own trace. -/
def citations_grounded (r : ReflectAgentResult) : Prop :=
  r.used_memory_ids ⊆ surfaced_memory_ids r.tool_trace ∧
  r.used_model_ids ⊆ surfaced_model_ids r.tool_trace ∧
  ∀ obs ∈ r.observations, obs.memory_ids ⊆ surfaced_memory_ids r.tool_trace

/-! Concrete collaborator environments and LLM behaviours used to settle
the claims on explicit inputs. -/

/-- Recall-style output whose `memories` array carries the given ids. -/
def memories_out (ids : List String) : ToolOutput :=
  { memories := some (ids.map (fun i => { id := some i })) }

/-- A `recall` tool call. -/
def recall_call (cid q : String) : LLMToolCall :=
  { id := cid, name := "recall", arguments := { query := some q } }

/-- A `done` tool call in answer mode. -/
def done_answer_call (cid ans : String) (mids : List String) : LLMToolCall :=
  { id := cid, name := "done", arguments := { answer := some ans, memory_ids := some mids } }

/-- A placeholder tool call for frame statements. -/
def dummy_call : LLMToolCall :=
  { id := "x", name := "recall" }

/-- Base concrete environment: a recall collaborator that surfaces no
memories, an expand collaborator echoing its inputs, a lookup collaborator
listing one model, no learn collaborator, identity-like schedule. -/
def base_env : AgentEnv :=
  { call_with_tools := fun _ _ _ => .ok {},
    call_final := fun _ _ => "forced fallback",
    lookup_fn := fun _ => .ok { models := some [{ id := some "mod1" }] },
    recall_fn := fun _ _ => .ok (memories_out []),
    expand_fn := fun ids depth => .ok (memories_out (ids.map (fun i => i ++ ":" ++ depth))),
    learn_fn := none,
    schedule := fun _ => [0] }

/-- LLM behaviour refuting claim C1 as stated: the first tool-offering
call requests a recall (which surfaces nothing), the second returns plain
text and no tool calls. -/
def content_accept_env : AgentEnv :=
  { base_env with
    call_with_tools := fun n _ _ =>
      if n == 0 then .ok { tool_calls := [recall_call "c1" "q"] }
      else .ok { content := some "ungrounded answer" } }

/-- LLM behaviour that requests a non-completion tool call on every
tool-offering invocation. -/
def always_tools_env : AgentEnv :=
  { base_env with
    call_with_tools := fun _ _ _ => .ok { tool_calls := [recall_call "c1" "q"] } }

/-- LLM transport that fails every tool-offering call. -/
def failing_llm_env : AgentEnv :=
  { base_env with call_with_tools := fun _ _ _ => .error "connection reset" }

/-- LLM behaviour that proposes `done` immediately, before any evidence
has been gathered. -/
def early_done_env : AgentEnv :=
  { base_env with
    call_with_tools := fun _ _ _ =>
      .ok { tool_calls := [done_answer_call "d1" "early answer" ["m1"]] } }

/-- Environment whose recall collaborator tags its output with the query,
used to distinguish the results of concurrently issued calls. -/
def ab_env : AgentEnv :=
  { base_env with recall_fn := fun q _ => .ok (memories_out [q ++ "-mem"]) }

/-- Tool call A of the ordering scenario. -/
def call_A : LLMToolCall := recall_call "A" "alpha"

/-- Tool call B of the ordering scenario. -/
def call_B : LLMToolCall := recall_call "B" "beta"

/-- Existing topics of the structural-diff example. -/
def team_projects_models : List ExistingModel :=
  [{ id := "id-team", name := "Team" }, { id := "id-projects", name := "Projects" }]

/-- Derivation response naming only "Projects". -/
def keep_projects_llm : String → List ExistingModel → StructuralDerivationResponse :=
  fun _ _ => { templates := [{ name := "Projects" }] }

/-- Derivation response carrying four templates, more than the prompt's
requested maximum of three. -/
def four_template_llm : String → List ExistingModel → StructuralDerivationResponse :=
  fun _ _ =>
    { templates := [{ name := "A" }, { name := "B" }, { name := "C" }, { name := "D" }] }

/-- Derivation response carrying a single template. -/
def one_template_llm : String → List ExistingModel → StructuralDerivationResponse :=
  fun _ _ => { templates := [{ name := "Sprint Goals" }] }

/-- Environment with a learn collaborator configured. -/
def learn_env : AgentEnv :=
  { base_env with learn_fn := some (fun _ => .ok { model_id := some "new-model" }) }

/-- LLM behaviour proposing `done` together with a non-completion tool
call in the same response. -/
def done_with_tools_env : AgentEnv :=
  { base_env with
    call_with_tools := fun _ _ _ =>
      .ok { tool_calls := [recall_call "c9" "q", done_answer_call "d1" "mixed" []] } }

/-- A session state whose Evidence Registry already holds one memory id. -/
def seeded_state : AgentState :=
  { initial_state "q" with available_memory_ids := ["m1"] }

/-- Scenario in which recall surfaces two memories and the final `done`
cites one surfaced id together with one fabricated id. -/
def cite_env : AgentEnv :=
  { base_env with
    recall_fn := fun _ _ => .ok (memories_out ["m1", "m2"]),
    call_with_tools := fun n _ _ =>
      if n == 0 then .ok { tool_calls := [recall_call "c1" "q"] }
      else .ok { tool_calls := [done_answer_call "d1" "ans" ["m1", "bogus"]] } }

/-! ### Supporting lemmas -/

theorem assign_template_id_name (t : StructuralModelTemplate) :
    (assign_template_id t).name = t.name := by
  unfold assign_template_id
  split <;> rfl

theorem derive_names (llm_call : String → List ExistingModel → StructuralDerivationResponse)
    (mission : String) (existing_models : List ExistingModel) :
    (derive_structural_models llm_call mission existing_models).1.map (fun t => t.name) =
      (llm_call mission existing_models).templates.map (fun t => t.name) := by
  simp [derive_structural_models, List.map_map, Function.comp_def, assign_template_id_name]

theorem lookup_complete (calls : List LLMToolCall)
    (exec : LLMToolCall → Except String ToolOutput) (order : List Nat) (i : Nat)
    (hlen : i < calls.length) (hmem : i ∈ order) :
    (complete_in_order calls exec order).lookup i = calls[i]?.map exec := by
  induction order with
  | nil => cases hmem
  | cons j rest ih =>
    have hi : calls[i]? = some calls[i] := List.getElem?_eq_getElem hlen
    by_cases hij : i = j
    · subst hij
      simp [complete_in_order, List.filterMap_cons, hi, List.lookup]
    · have hrest : i ∈ rest := by
        rcases List.mem_cons.mp hmem with h | h
        · exact absurd h hij
        · exact h
      have hbeq : (i == j) = false := by simp [hij]
      cases hj : calls[j]? with
      | none =>
        simpa [complete_in_order, List.filterMap_cons, hj] using ih hrest
      | some tc =>
        simpa [complete_in_order, List.filterMap_cons, hj, List.lookup, hbeq] using ih hrest

theorem range_filterMap_get {α β : Type} (l : List α) (g : α → β) :
    (List.range l.length).filterMap (fun i => l[i]?.map g) = l.map g := by
  induction l with
  | nil => rfl
  | cons a l ih =>
    rw [List.length_cons, List.range_succ_eq_map, List.filterMap_cons, List.filterMap_map]
    simp only [List.getElem?_cons_zero, Option.map_some', Function.comp_def,
      List.getElem?_cons_succ, List.map_cons]
    rw [ih]

theorem gather_results_eq (calls : List LLMToolCall)
    (exec : LLMToolCall → Except String ToolOutput) (order : List Nat)
    (h : ∀ i, i < calls.length → i ∈ order) :
    gather_results calls exec order = calls.map exec := by
  unfold gather_results
  rw [List.filterMap_congr (g := fun i => calls[i]?.map exec)]
  · exact range_filterMap_get calls exec
  · intro i hi
    exact lookup_complete calls exec order i (List.mem_range.mp hi)
      (h i (List.mem_range.mp hi))

theorem process_tool_result_messages (st : AgentState) (tc : LLMToolCall)
    (r : Except String ToolOutput) :
    (process_tool_result st tc r).messages =
      st.messages ++ [Msg.tool tc.id (outcome_output r)] := by
  cases r with
  | error e => rfl
  | ok output =>
    simp only [process_tool_result, outcome_output, append_result]
    split <;> rfl

theorem foldl_zip_map_messages (exec : LLMToolCall → Except String ToolOutput) :
    ∀ (calls : List LLMToolCall) (st : AgentState),
      ((calls.zip (calls.map exec)).foldl
          (fun s p => process_tool_result s p.1 p.2) st).messages =
        st.messages ++ calls.map (fun tc => Msg.tool tc.id (outcome_output (exec tc)))
  | [], st => by simp
  | tc :: calls, st => by
    rw [List.map_cons, List.zip_cons_cons, List.foldl_cons,
      foldl_zip_map_messages exec calls, process_tool_result_messages]
    simp

theorem has_gathered_evidence_llm_ok (st : AgentState) (iter : Nat) :
    has_gathered_evidence (llm_ok_state st iter) = has_gathered_evidence st := rfl

theorem has_gathered_evidence_llm_err (st : AgentState) (iter : Nat) :
    has_gathered_evidence (llm_err_state st iter) = has_gathered_evidence st := rfl

theorem find_done_ne_nil {resp : LLMToolResponse} {done_call : LLMToolCall}
    (hdone : resp.tool_calls.find? (fun tc => tc.name == "done") = some done_call) :
    resp.tool_calls.isEmpty = false := by
  cases hc : resp.tool_calls with
  | nil => rw [hc] at hdone; cases hdone
  | cons a l => rfl

theorem ne_nil_isEmpty {α : Type} {l : List α} (h : l ≠ []) : l.isEmpty = false := by
  cases l with
  | nil => exact absurd rfl h
  | cons a t => rfl

theorem step_tools (env : AgentEnv) (output_mode : String) (remaining iter : Nat)
    (st : AgentState) (resp : LLMToolResponse)
    (hcall : env.call_with_tools st.llm_calls st.messages (iter == 0) = .ok resp)
    (hne : resp.tool_calls ≠ [])
    (hnd : ∀ tc ∈ resp.tool_calls, tc.name ≠ "done") :
    ∃ st2, reflect_loop env output_mode (remaining + 2) iter st =
      reflect_loop env output_mode (remaining + 1) (iter + 1) st2 := by
  have hempty := ne_nil_isEmpty hne
  have hfind : resp.tool_calls.find? (fun tc => tc.name == "done") = none := by
    rw [List.find?_eq_none]
    intro tc htc
    simpa using hnd tc htc
  refine ⟨if (resp.tool_calls.filter (fun tc => tc.name != "done")).isEmpty
      then llm_ok_state st iter
      else execute_round env (llm_ok_state st iter)
        (resp.tool_calls.filter (fun tc => tc.name != "done"))
        (env.schedule (llm_ok_state st iter).llm_calls), ?_⟩
  simp only [reflect_loop, hcall, hempty, hfind]
  simp

theorem step_last (env : AgentEnv) (output_mode : String) (iter : Nat) (st : AgentState) :
    reflect_loop env output_mode 1 iter st = forced_final env st (iter + 1) := by
  simp [reflect_loop]

theorem process_done_tool_frame (done_call : LLMToolCall) (output_mode : String)
    (amem amod : List String) (iterations total_tools_called : Nat)
    (mmc : List String) (trace : List ToolCall) (ltr : List LLMCall) :
    (process_done_tool done_call output_mode amem amod iterations
        total_tools_called mmc trace ltr).tool_trace = trace ∧
    (process_done_tool done_call output_mode amem amod iterations
        total_tools_called mmc trace ltr).tools_called = total_tools_called ∧
    (process_done_tool done_call output_mode amem amod iterations
        total_tools_called mmc trace ltr).iterations = iterations := by
  cases h : (output_mode == "observations" && done_call.arguments.observations.isSome) <;>
    simp [process_done_tool, h]

theorem add_id_subset {l s : List String} {x : String} (hl : l ⊆ s) (hx : x ∈ s) :
    add_id l x ⊆ s := by
  unfold add_id
  split
  · exact hl
  · intro y hy
    rcases List.mem_append.mp hy with h | h
    · exact hl h
    · rcases List.mem_singleton.mp h with rfl
      exact hx

theorem add_ids_subset : ∀ {xs l s : List String}, l ⊆ s → xs ⊆ s → add_ids l xs ⊆ s
  | [], _, _, hl, _ => hl
  | x :: xs, l, s, hl, hxs => by
    have hx : x ∈ s := hxs (List.mem_cons_self x xs)
    have hxs' : xs ⊆ s := fun y hy => hxs (List.mem_cons_of_mem x hy)
    simpa only [add_ids, List.foldl_cons] using
      add_ids_subset (add_id_subset hl hx) hxs'

theorem surfaced_memory_append (trace : List ToolCall) (t : ToolCall) :
    surfaced_memory_ids (trace ++ [t]) =
      surfaced_memory_ids trace ++ extract_memory_ids t.tool t.output := by
  simp [surfaced_memory_ids]

theorem surfaced_model_append (trace : List ToolCall) (t : ToolCall) :
    surfaced_model_ids (trace ++ [t]) =
      surfaced_model_ids trace ++ extract_model_ids t.tool t.output := by
  simp [surfaced_model_ids]

theorem extract_memory_errOut (tool_name e : String) :
    extract_memory_ids tool_name (errOut e) = [] := by
  unfold extract_memory_ids errOut
  split <;> rfl

theorem extract_model_errOut (tool_name e : String) :
    extract_model_ids tool_name (errOut e) = [] := by
  unfold extract_model_ids errOut
  split <;> rfl

theorem add_ids_nil (l : List String) : add_ids l [] = l := rfl

theorem process_tool_result_components (st : AgentState) (tc : LLMToolCall)
    (r : Except String ToolOutput) :
    (process_tool_result st tc r).available_memory_ids =
      add_ids st.available_memory_ids (extract_memory_ids tc.name (outcome_output r)) ∧
    (process_tool_result st tc r).available_model_ids =
      add_ids st.available_model_ids (extract_model_ids tc.name (outcome_output r)) ∧
    (process_tool_result st tc r).tool_trace =
      st.tool_trace ++ [⟨tc.name, tc.arguments, outcome_output r, 0⟩] := by
  cases r with
  | error e =>
    refine ⟨?_, ?_, rfl⟩
    · simp [process_tool_result, append_result, outcome_output, extract_memory_errOut,
        add_ids_nil]
    · simp [process_tool_result, append_result, outcome_output, extract_model_errOut,
        add_ids_nil]
  | ok output =>
    simp only [process_tool_result, append_result, outcome_output]
    split <;> exact ⟨rfl, rfl, rfl⟩

theorem registry_grounded_process (st : AgentState) (tc : LLMToolCall)
    (r : Except String ToolOutput) (h : registry_grounded st) :
    registry_grounded (process_tool_result st tc r) := by
  obtain ⟨hc1, hc2, hc3⟩ := process_tool_result_components st tc r
  obtain ⟨h1, h2⟩ := h
  constructor
  · rw [hc1, hc3]
    have ht : surfaced_memory_ids (st.tool_trace ++ [⟨tc.name, tc.arguments, outcome_output r, 0⟩]) =
        surfaced_memory_ids st.tool_trace ++ extract_memory_ids tc.name (outcome_output r) :=
      surfaced_memory_append st.tool_trace _
    rw [ht]
    exact add_ids_subset (h1.trans (List.subset_append_left _ _)) (List.subset_append_right _ _)
  · rw [hc2, hc3]
    have ht : surfaced_model_ids (st.tool_trace ++ [⟨tc.name, tc.arguments, outcome_output r, 0⟩]) =
        surfaced_model_ids st.tool_trace ++ extract_model_ids tc.name (outcome_output r) :=
      surfaced_model_append st.tool_trace _
    rw [ht]
    exact add_ids_subset (h2.trans (List.subset_append_left _ _)) (List.subset_append_right _ _)

theorem registry_grounded_foldl :
    ∀ (pairs : List (LLMToolCall × Except String ToolOutput)) (st : AgentState),
      registry_grounded st →
      registry_grounded (pairs.foldl (fun s p => process_tool_result s p.1 p.2) st)
  | [], _, h => h
  | p :: pairs, st, h => by
    simpa only [List.foldl_cons] using
      registry_grounded_foldl pairs _ (registry_grounded_process st p.1 p.2 h)

theorem registry_grounded_round (env : AgentEnv) (st : AgentState)
    (calls : List LLMToolCall) (order : List Nat) (h : registry_grounded st) :
    registry_grounded (execute_round env st calls order) := by
  unfold execute_round
  exact registry_grounded_foldl _ _ h

theorem validate_obs_step_subset {available : List String}
    {acc : List String × List String} (mid : String)
    (h1 : acc.1 ⊆ available) (h2 : acc.2 ⊆ available) :
    (validate_obs_step available acc mid).1 ⊆ available ∧
    (validate_obs_step available acc mid).2 ⊆ available := by
  unfold validate_obs_step
  split
  · rename_i hmem
    constructor
    · intro y hy
      rcases List.mem_append.mp hy with h | h
      · exact h1 h
      · rcases List.mem_singleton.mp h with rfl
        exact hmem
    · split
      · exact h2
      · intro y hy
        rcases List.mem_append.mp hy with h | h
        · exact h2 h
        · rcases List.mem_singleton.mp h with rfl
          exact hmem
  · exact ⟨h1, h2⟩

theorem validate_obs_foldl_subset (available : List String) :
    ∀ (mids : List String) (acc : List String × List String),
      acc.1 ⊆ available → acc.2 ⊆ available →
      (mids.foldl (validate_obs_step available) acc).1 ⊆ available ∧
      (mids.foldl (validate_obs_step available) acc).2 ⊆ available
  | [], _, h1, h2 => ⟨h1, h2⟩
  | mid :: mids, acc, h1, h2 => by
    have h := validate_obs_step_subset mid h1 h2
    simpa only [List.foldl_cons] using validate_obs_foldl_subset available mids _ h.1 h.2

theorem process_obs_foldl_subset (available : List String) :
    ∀ (obs_args : List ObsArg) (acc : List Observation × List String),
      (∀ o ∈ acc.1, o.memory_ids ⊆ available) → acc.2 ⊆ available →
      (∀ o ∈ (obs_args.foldl (process_obs_step available) acc).1,
        o.memory_ids ⊆ available) ∧
      (obs_args.foldl (process_obs_step available) acc).2 ⊆ available
  | [], _, h1, h2 => ⟨h1, h2⟩
  | obs_data :: obs_args, acc, h1, h2 => by
    have hv := validate_obs_foldl_subset available (obs_data.memory_ids.getD [])
      ([], acc.2) (List.nil_subset _) h2
    have h1' : ∀ o ∈ (process_obs_step available acc obs_data).1,
        o.memory_ids ⊆ available := by
      intro o ho
      rcases List.mem_append.mp ho with h | h
      · exact h1 o h
      · rcases List.mem_singleton.mp h with rfl
        exact hv.1
    have h2' : (process_obs_step available acc obs_data).2 ⊆ available := hv.2
    simpa only [List.foldl_cons] using
      process_obs_foldl_subset available obs_args _ h1' h2'

theorem process_done_tool_grounded (done_call : LLMToolCall) (output_mode : String)
    (amem amod : List String) (iterations total_tools_called : Nat)
    (mmc : List String) (trace : List ToolCall) (ltr : List LLMCall) :
    (process_done_tool done_call output_mode amem amod iterations
        total_tools_called mmc trace ltr).used_memory_ids ⊆ amem ∧
    (process_done_tool done_call output_mode amem amod iterations
        total_tools_called mmc trace ltr).used_model_ids ⊆ amod ∧
    ∀ o ∈ (process_done_tool done_call output_mode amem amod iterations
        total_tools_called mmc trace ltr).observations, o.memory_ids ⊆ amem := by
  cases h : (output_mode == "observations" && done_call.arguments.observations.isSome) with
  | false =>
    simp only [process_done_tool, h]
    refine ⟨?_, ?_, by simp⟩
    · intro y hy
      have := List.mem_filter.mp hy
      exact of_decide_eq_true this.2
    · intro y hy
      have := List.mem_filter.mp hy
      exact of_decide_eq_true this.2
  | true =>
    simp only [process_done_tool, h]
    have hp := process_obs_foldl_subset amem (done_call.arguments.observations.getD [])
      ([], []) (by simp) (List.nil_subset _)
    exact ⟨hp.2, List.nil_subset _, hp.1⟩

theorem citations_grounded_forced (env : AgentEnv) (st : AgentState) (iterations : Nat) :
    citations_grounded (forced_final env st iterations).result := by
  refine ⟨List.nil_subset _, List.nil_subset _, by simp [forced_final]⟩

theorem reflect_loop_grounded (env : AgentEnv) (output_mode : String) :
    ∀ (fuel iter : Nat) (st : AgentState), registry_grounded st →
      citations_grounded (reflect_loop env output_mode fuel iter st).result := by
  intro fuel
  induction fuel with
  | zero =>
    intro iter st _h
    exact ⟨List.nil_subset _, List.nil_subset _, by simp [reflect_loop]⟩
  | succ fuel ih =>
    intro iter st h
    rw [reflect_loop]
    cases hf : (fuel == 0) with
    | true => simpa only [hf, if_true] using citations_grounded_forced env st (iter + 1)
    | false =>
      simp only [hf, Bool.false_eq_true, if_false]
      cases hcall : env.call_with_tools st.llm_calls st.messages (iter == 0) with
      | error e =>
        cases hguard : (!has_gathered_evidence (llm_err_state st iter) &&
            decide (0 < fuel)) with
        | true =>
          simp only [hguard, if_true]
          exact ih (iter + 1) (llm_err_state st iter) h
        | false =>
          simp only [hguard, Bool.false_eq_true, if_false]
          exact citations_grounded_forced env (llm_err_state st iter) (iter + 1)
      | ok resp =>
        cases hempty : resp.tool_calls.isEmpty with
        | true =>
          simp only [hempty, if_true]
          cases hcontent : truthyStr resp.content with
          | none =>
            simp only [hcontent]
            exact citations_grounded_forced env (llm_ok_state st iter) (iter + 1)
          | some c =>
            simp only [hcontent]
            exact ⟨List.nil_subset _, List.nil_subset _, by simp⟩
        | false =>
          simp only [hempty, Bool.false_eq_true, if_false]
          cases hfind : resp.tool_calls.find? (fun tc => tc.name == "done") with
          | some done_call =>
            simp only [hfind]
            cases hguard : (!has_gathered_evidence (llm_ok_state st iter) &&
                decide (0 < fuel)) with
            | true =>
              simp only [hguard, if_true]
              exact ih (iter + 1) (reject_done_state (llm_ok_state st iter) done_call) h
            | false =>
              simp only [hguard, Bool.false_eq_true, if_false]
              have hframe := process_done_tool_frame done_call output_mode
                (llm_ok_state st iter).available_memory_ids
                (llm_ok_state st iter).available_model_ids (iter + 1)
                (llm_ok_state st iter).total_tools_called
                (llm_ok_state st iter).mental_models_created
                (llm_ok_state st iter).tool_trace (llm_ok_state st iter).llm_trace
              have hg := process_done_tool_grounded done_call output_mode
                (llm_ok_state st iter).available_memory_ids
                (llm_ok_state st iter).available_model_ids (iter + 1)
                (llm_ok_state st iter).total_tools_called
                (llm_ok_state st iter).mental_models_created
                (llm_ok_state st iter).tool_trace (llm_ok_state st iter).llm_trace
              refine ⟨?_, ?_, ?_⟩
              · rw [hframe.1]
                exact hg.1.trans h.1
              · rw [hframe.1]
                exact hg.2.1.trans h.2
              · intro o ho
                rw [hframe.1]
                exact (hg.2.2 o ho).trans h.1
          | none =>
            simp only [hfind]
            cases hsub : (resp.tool_calls.filter (fun tc => tc.name != "done")).isEmpty with
            | true =>
              simp only [hsub, if_true]
              exact ih (iter + 1) (llm_ok_state st iter) h
            | false =>
              simp only [hsub, Bool.false_eq_true, if_false]
              exact ih (iter + 1) _ (registry_grounded_round env (llm_ok_state st iter) _ _ h)

/-! ### Claim theorems -/

/-- Claim C2: for every completed session — any collaborators, any LLM
behaviour, any iteration bound, any output mode — the identifiers cited in
the returned result (`used_memory_ids`, `used_model_ids` and each returned
observation's `memory_ids`) are a subset of the identifiers surfaced by
the tool results recorded in that session's own trace (the Evidence
Registry); identifiers outside the registry are dropped by a pure filter
that has no error channel. -/
theorem C2_citation_soundness (env : AgentEnv) (query : String)
    (max_iterations : Nat) (output_mode : String) :
    citations_grounded (run_reflect_agent env query max_iterations output_mode).result :=
  reflect_loop_grounded env output_mode max_iterations 0 (initial_state query)
    ⟨List.nil_subset _, List.nil_subset _⟩

/-- Concrete session in which the final `done` cites one surfaced id and
one fabricated id: the returned citations stay inside the surfaced set. -/
theorem C2_citation_soundness_witness :
    citations_grounded (run_reflect_agent cite_env "q" 10 "answer").result ∧
    (run_reflect_agent cite_env "q" 10 "answer").result.used_memory_ids = ["m1"] ∧
    surfaced_memory_ids (run_reflect_agent cite_env "q" 10 "answer").result.tool_trace =
      ["m1", "m2"] :=
  ⟨C2_citation_soundness cite_env "q" 10 "answer", by decide, by decide⟩

/-- Claim C1 counterexample: a completion is accepted while the Evidence
Registry is empty and iterations remain.  The first iteration issues a
recall that surfaces no memories; on the second iteration the LLM returns
plain text and no tool calls, and the loop returns it as a non-forced
accepted result after 2 of 10 iterations, with a trace that surfaced no
identifiers at all. -/
theorem C1_counterexample :
    (run_reflect_agent content_accept_env "q" 10 "answer").forced = false ∧
    (run_reflect_agent content_accept_env "q" 10 "answer").result.text = "ungrounded answer" ∧
    (run_reflect_agent content_accept_env "q" 10 "answer").result.iterations = 2 ∧
    surfaced_memory_ids
      (run_reflect_agent content_accept_env "q" 10 "answer").result.tool_trace = [] ∧
    surfaced_model_ids
      (run_reflect_agent content_accept_env "q" 10 "answer").result.tool_trace = [] := by
  refine ⟨by decide, by decide, by decide, by decide, by decide⟩

/-- Claim C1 amended: on every iteration that is not the final allowed
one, a `done` proposal made while the Evidence Registry is empty is
rejected — the assistant message carrying the rejected call plus a
synthetic tool-result error instructing that evidence must be gathered
first are appended and the loop continues to the next iteration, so no
completion is accepted through the `done` tool while the registry is
empty and iterations remain.  (A plain-text response with no tool calls
is, however, accepted regardless of the registry: see the
counterexample.) -/
theorem C1_done_guardrail (env : AgentEnv) (output_mode : String)
    (remaining iter : Nat) (st : AgentState) (resp : LLMToolResponse)
    (done_call : LLMToolCall)
    (hcall : env.call_with_tools st.llm_calls st.messages (iter == 0) = .ok resp)
    (hdone : resp.tool_calls.find? (fun tc => tc.name == "done") = some done_call)
    (hev : has_gathered_evidence st = false) :
    reflect_loop env output_mode (remaining + 2) iter st =
      reflect_loop env output_mode (remaining + 1) (iter + 1)
        (reject_done_state (llm_ok_state st iter) done_call) := by
  have hne := find_done_ne_nil hdone
  simp only [reflect_loop, hcall, hne, hdone, has_gathered_evidence_llm_ok, hev]
  simp

theorem C1_done_guardrail_witness :
    reflect_loop early_done_env "answer" 2 0 (initial_state "q") =
      reflect_loop early_done_env "answer" 1 1
        (reject_done_state (llm_ok_state (initial_state "q") 0)
          (done_answer_call "d1" "early answer" ["m1"])) :=
  C1_done_guardrail early_done_env "answer" 0 0 (initial_state "q")
    { tool_calls := [done_answer_call "d1" "early answer" ["m1"]] }
    (done_answer_call "d1" "early answer" ["m1"]) rfl rfl rfl

/-- Claim C5: when the tool-offering LLM call of a non-final iteration
raises, the loop retries rather than terminating if the Evidence Registry
is empty, and otherwise falls back to a forced final plain-text completion
built from the accumulated context history, returning a result instead of
propagating the failure. -/
theorem C5_llm_failure (env : AgentEnv) (output_mode : String)
    (remaining iter : Nat) (st : AgentState) (e : String)
    (hcall : env.call_with_tools st.llm_calls st.messages (iter == 0) = .error e) :
    (has_gathered_evidence st = false →
      reflect_loop env output_mode (remaining + 2) iter st =
        reflect_loop env output_mode (remaining + 1) (iter + 1) (llm_err_state st iter)) ∧
    (has_gathered_evidence st = true →
      reflect_loop env output_mode (remaining + 2) iter st =
        forced_final env (llm_err_state st iter) (iter + 1)) := by
  constructor
  · intro hev
    simp only [reflect_loop, hcall, has_gathered_evidence_llm_err, hev]
    simp
  · intro hev
    simp only [reflect_loop, hcall, has_gathered_evidence_llm_err, hev]
    simp

theorem C5_llm_failure_witness :
    (reflect_loop failing_llm_env "answer" 2 0 (initial_state "q") =
      reflect_loop failing_llm_env "answer" 1 1 (llm_err_state (initial_state "q") 0)) ∧
    (reflect_loop failing_llm_env "answer" 2 0 seeded_state =
      forced_final failing_llm_env (llm_err_state seeded_state 0) 1) :=
  ⟨(C5_llm_failure failing_llm_env "answer" 0 0 (initial_state "q")
      "connection reset" rfl).1 rfl,
   (C5_llm_failure failing_llm_env "answer" 0 0 seeded_state
      "connection reset" rfl).2 rfl⟩

/-- Claim C10: when an LLM response contains a `done` call (possibly
together with other tool calls), only the `done` call is processed: either
the guardrail rejects it — the loop continues with only the assistant
message and the synthetic error appended, the Evidence Registry, the tool
trace and the tool counter untouched, so none of the other calls is
executed — or the session terminates through `_process_done_tool` with
the trace and tool counter it had before the iteration. -/
theorem C10_done_short_circuit (env : AgentEnv) (output_mode : String)
    (remaining iter : Nat) (st : AgentState) (resp : LLMToolResponse)
    (done_call : LLMToolCall)
    (hcall : env.call_with_tools st.llm_calls st.messages (iter == 0) = .ok resp)
    (hdone : resp.tool_calls.find? (fun tc => tc.name == "done") = some done_call) :
    (has_gathered_evidence st = false →
      ∃ st2,
        reflect_loop env output_mode (remaining + 2) iter st =
          reflect_loop env output_mode (remaining + 1) (iter + 1) st2 ∧
        st2.tool_trace = st.tool_trace ∧
        st2.available_memory_ids = st.available_memory_ids ∧
        st2.available_model_ids = st.available_model_ids ∧
        st2.total_tools_called = st.total_tools_called ∧
        st2.messages = st.messages ++
          [Msg.assistant [done_call],
           Msg.tool done_call.id (errOut evidence_required_message)]) ∧
    (has_gathered_evidence st = true →
      reflect_loop env output_mode (remaining + 2) iter st =
        { result := process_done_tool done_call output_mode
            st.available_memory_ids st.available_model_ids (iter + 1)
            st.total_tools_called st.mental_models_created st.tool_trace
            (llm_ok_state st iter).llm_trace,
          forced := false } ∧
      (reflect_loop env output_mode (remaining + 2) iter st).result.tool_trace =
        st.tool_trace ∧
      (reflect_loop env output_mode (remaining + 2) iter st).result.tools_called =
        st.total_tools_called) := by
  have hne := find_done_ne_nil hdone
  constructor
  · intro hev
    refine ⟨reject_done_state (llm_ok_state st iter) done_call, ?_, rfl, rfl, rfl, rfl, rfl⟩
    simp only [reflect_loop, hcall, hne, hdone, has_gathered_evidence_llm_ok, hev]
    simp
  · intro hev
    have heq :
        reflect_loop env output_mode (remaining + 2) iter st =
          { result := process_done_tool done_call output_mode
              st.available_memory_ids st.available_model_ids (iter + 1)
              st.total_tools_called st.mental_models_created st.tool_trace
              (llm_ok_state st iter).llm_trace,
            forced := false } := by
      simp only [reflect_loop, hcall, hne, hdone, has_gathered_evidence_llm_ok, hev]
      simp [llm_ok_state]
    refine ⟨heq, ?_, ?_⟩
    · rw [heq]
      exact (process_done_tool_frame done_call output_mode st.available_memory_ids
        st.available_model_ids (iter + 1) st.total_tools_called
        st.mental_models_created st.tool_trace (llm_ok_state st iter).llm_trace).1
    · rw [heq]
      exact (process_done_tool_frame done_call output_mode st.available_memory_ids
        st.available_model_ids (iter + 1) st.total_tools_called
        st.mental_models_created st.tool_trace (llm_ok_state st iter).llm_trace).2.1

theorem C10_done_short_circuit_witness :
    (∃ st2,
      reflect_loop done_with_tools_env "answer" 2 0 (initial_state "q") =
        reflect_loop done_with_tools_env "answer" 1 1 st2 ∧
      st2.tool_trace = (initial_state "q").tool_trace ∧
      st2.available_memory_ids = (initial_state "q").available_memory_ids ∧
      st2.available_model_ids = (initial_state "q").available_model_ids ∧
      st2.total_tools_called = (initial_state "q").total_tools_called ∧
      st2.messages = (initial_state "q").messages ++
        [Msg.assistant [done_answer_call "d1" "mixed" []],
         Msg.tool "d1" (errOut evidence_required_message)]) ∧
    (reflect_loop done_with_tools_env "answer" 2 0 seeded_state).result.tool_trace =
      seeded_state.tool_trace :=
  ⟨(C10_done_short_circuit done_with_tools_env "answer" 0 0 (initial_state "q")
      { tool_calls := [recall_call "c9" "q", done_answer_call "d1" "mixed" []] }
      (done_answer_call "d1" "mixed" []) rfl rfl).1 rfl,
   ((C10_done_short_circuit done_with_tools_env "answer" 0 0 seeded_state
      { tool_calls := [recall_call "c9" "q", done_answer_call "d1" "mixed" []] }
      (done_answer_call "d1" "mixed" []) rfl rfl).2 rfl).2.1⟩

/-- Claim C4: for every fan-out round and every completion order covering
the issued calls, the tool-result messages appended to the conversation
follow the original request order of the tool calls — the round's
conversation suffix is the assistant message followed by one tool-result
message per call, in request order, independent of the completion
order. -/
theorem C4_request_order (env : AgentEnv) (st : AgentState)
    (calls : List LLMToolCall) (order : List Nat)
    (h : ∀ i, i < calls.length → i ∈ order) :
    (execute_round env st calls order).messages =
      st.messages ++ [Msg.assistant calls] ++
        calls.map (fun tc =>
          Msg.tool tc.id (outcome_output (execute_tool env tc.name tc.arguments))) := by
  unfold execute_round
  rw [gather_results_eq _ _ _ h, foldl_zip_map_messages]

/-- Calls A and B issued together with B completing first: the resulting
tool-result messages still appear in request order, A before B. -/
theorem C4_request_order_witness :
    (∀ i, i < ([call_A, call_B] : List LLMToolCall).length → i ∈ ([1, 0] : List Nat)) ∧
    (execute_round ab_env (initial_state "q") [call_A, call_B] [1, 0]).messages =
      [Msg.system, Msg.user "q", Msg.assistant [call_A, call_B],
       Msg.tool "A" (memories_out ["alpha-mem"]), Msg.tool "B" (memories_out ["beta-mem"])] :=
  ⟨by decide,
    (C4_request_order ab_env (initial_state "q") [call_A, call_B] [1, 0] (by decide)).trans
      (by decide)⟩

/-- Claim C7: after a structural derivation run over existing topics,
exactly the existing topics whose name does not appear among the returned
template names are marked for removal, every returned template is kept
with its name unchanged, and on existing topics Team and Projects with a
derivation naming only Projects, the id of Team is in the removal list
and the id of Projects is not. -/
theorem C7_structural_diff
    (llm_call : String → List ExistingModel → StructuralDerivationResponse)
    (mission : String) (existing_models : List ExistingModel) :
    (∀ m ∈ existing_models,
        m.name ∉ (llm_call mission existing_models).templates.map (fun t => t.name) →
        m.id ∈ (derive_structural_models llm_call mission existing_models).2) ∧
    (∀ i ∈ (derive_structural_models llm_call mission existing_models).2,
        ∃ m ∈ existing_models, m.id = i ∧
          m.name ∉ (llm_call mission existing_models).templates.map (fun t => t.name)) ∧
    ((derive_structural_models llm_call mission existing_models).1.map (fun t => t.name) =
        (llm_call mission existing_models).templates.map (fun t => t.name)) ∧
    ((derive_structural_models keep_projects_llm "mission" team_projects_models).2 =
        ["id-team"] ∧
      (derive_structural_models keep_projects_llm "mission" team_projects_models).1.map
          (fun t => t.name) = ["Projects"]) := by
  refine ⟨?_, ?_, derive_names llm_call mission existing_models, by decide, by decide⟩
  · intro m hm hname
    have hne : ¬existing_models.isEmpty := by
      cases existing_models with
      | nil => cases hm
      | cons a l => simp [List.isEmpty]
    simp only [derive_structural_models, hne, if_false, ite_false]
    simp only [List.map_map, Function.comp_def, assign_template_id_name]
    refine List.mem_map.mpr ⟨m, List.mem_filter.mpr ⟨hm, ?_⟩, rfl⟩
    simpa using hname
  · intro i hi
    by_cases hne : existing_models.isEmpty
    · simp [derive_structural_models, hne] at hi
    · simp only [derive_structural_models, hne, if_false, ite_false] at hi
      simp only [List.map_map, Function.comp_def, assign_template_id_name] at hi
      obtain ⟨m, hm, rfl⟩ := List.mem_map.mp hi
      have := List.mem_filter.mp hm
      exact ⟨m, this.1, rfl, by simpa using this.2⟩

theorem C7_structural_diff_witness :
    "id-team" ∈ (derive_structural_models keep_projects_llm "mission" team_projects_models).2 :=
  (C7_structural_diff keep_projects_llm "mission" team_projects_models).1
    { id := "id-team", name := "Team" } (by decide) (by decide)

/-- Claim C8 counterexample: an LLM response carrying four templates makes
`derive_structural_models` return four topic templates — the function does
not enforce the 0-3 bound the prompt requests. -/
theorem C8_counterexample :
    3 < (derive_structural_models four_template_llm "mission" []).1.length := by
  decide

/-- Claim C8 amended: `derive_structural_models` returns exactly as many
templates as the LLM response contains, so the 0-3 bound holds exactly
when the LLM's response obeys the prompt's requested maximum of three. -/
theorem C8_template_bound
    (llm_call : String → List ExistingModel → StructuralDerivationResponse)
    (mission : String) (existing_models : List ExistingModel)
    (h : (llm_call mission existing_models).templates.length ≤ 3) :
    (derive_structural_models llm_call mission existing_models).1.length ≤ 3 := by
  simpa [derive_structural_models] using h

theorem C8_template_bound_witness :
    (one_template_llm "m" []).templates.length ≤ 3 ∧
    (derive_structural_models one_template_llm "m" []).1.length ≤ 3 :=
  ⟨by decide, C8_template_bound one_template_llm "m" [] (by decide)⟩

/-- Claim C6 counterexample: an `expand` invocation whose arguments omit
the `depth` key — a required argument per the tool contract — is not
rejected with an error payload; the dispatcher defaults `depth` to
`"chunk"` and returns the collaborator's successful result. -/
theorem C6_counterexample :
    execute_tool base_env "expand" { memory_ids := some ["m1"] } =
      .ok (memories_out ["m1:chunk"]) ∧
    (memories_out ["m1:chunk"]).error = none :=
  ⟨rfl, rfl⟩

/-- Claim C6 amended: the dispatcher answers a missing `model_id` for
`get_mental_model`, a missing `query` for `recall`, missing `name` or
`description` for `learn`, missing `memory_ids` for `expand`, a disabled
`learn` tool and an unknown tool name with a structured error payload
(`Except.ok` of an `error` output, never a raised exception); a missing
`depth` for `expand` is not validated but defaults to `"chunk"`; and an
exception raised by a collaborator during the parallel round is captured
as an error payload appended as that tool's result message. -/
theorem C6_dispatcher_errors (env : AgentEnv) (args : ToolArgs) (tool_name : String)
    (st : AgentState) (tc : LLMToolCall) (e : String) :
    (truthyStr args.model_id = none →
      execute_tool env "get_mental_model" args =
        .ok (errOut "get_mental_model requires model_id")) ∧
    (truthyStr args.query = none →
      execute_tool env "recall" args = .ok (errOut "recall requires a query parameter")) ∧
    (env.learn_fn = none →
      execute_tool env "learn" args = .ok (errOut "learn tool is not available")) ∧
    (env.learn_fn.isSome →
      truthyStr args.name = none ∨ truthyStr args.description = none →
      execute_tool env "learn" args = .ok (errOut "learn requires name and description")) ∧
    (args.memory_ids.getD [] = [] →
      execute_tool env "expand" args = .ok (errOut "expand requires memory_ids")) ∧
    (args.memory_ids.getD [] ≠ [] → args.depth = none →
      execute_tool env "expand" args = env.expand_fn (args.memory_ids.getD []) "chunk") ∧
    (tool_name ∉ ["list_mental_models", "get_mental_model", "recall", "learn", "expand"] →
      execute_tool env tool_name args = .ok (errOut ("Unknown tool: " ++ tool_name))) ∧
    (process_tool_result st tc (.error e) = append_result st tc (errOut e) 0) := by
  refine ⟨?_, ?_, ?_, ?_, ?_, ?_, ?_, rfl⟩
  · intro h
    simp [execute_tool, h]
  · intro h
    simp [execute_tool, h]
  · intro h
    simp [execute_tool, h]
  · intro hsome h
    obtain ⟨learn, hl⟩ := Option.isSome_iff_exists.mp hsome
    rcases h with h | h <;> simp [execute_tool, hl, h]
  · intro h
    simp [execute_tool, h]
  · intro h hd
    simp [execute_tool, h, hd]
  · intro h
    simp only [List.mem_cons, List.mem_singleton, not_or] at h
    obtain ⟨h1, h2, h3, h4, h5⟩ := h
    simp [execute_tool, h1, h2, h3, h4, h5]

theorem C6_dispatcher_errors_witness :
    execute_tool base_env "get_mental_model" {} =
      .ok (errOut "get_mental_model requires model_id") ∧
    execute_tool base_env "recall" {} = .ok (errOut "recall requires a query parameter") ∧
    execute_tool base_env "learn" {} = .ok (errOut "learn tool is not available") ∧
    execute_tool learn_env "learn" {} = .ok (errOut "learn requires name and description") ∧
    execute_tool base_env "expand" {} = .ok (errOut "expand requires memory_ids") ∧
    execute_tool base_env "expand" { memory_ids := some ["m1"] } =
      base_env.expand_fn ["m1"] "chunk" ∧
    execute_tool base_env "frobnicate" {} = .ok (errOut "Unknown tool: frobnicate") ∧
    process_tool_result (initial_state "q") dummy_call (.error "boom") =
      append_result (initial_state "q") dummy_call (errOut "boom") 0 := by
  have h := C6_dispatcher_errors base_env {} "frobnicate" (initial_state "q") dummy_call "boom"
  have hl := C6_dispatcher_errors learn_env {} "frobnicate" (initial_state "q") dummy_call "boom"
  have he := C6_dispatcher_errors base_env { memory_ids := some ["m1"] } "frobnicate"
    (initial_state "q") dummy_call "boom"
  exact ⟨h.1 rfl, h.2.1 rfl, h.2.2.1 rfl, hl.2.2.2.1 rfl (Or.inl rfl),
    h.2.2.2.2.1 rfl, he.2.2.2.2.2.1 (by decide) rfl,
    h.2.2.2.2.2.2.1 (by decide), h.2.2.2.2.2.2.2⟩

/-- Claim C3: with `max_iterations = 3` and an LLM whose every
tool-offering call succeeds and requests only non-completion tool calls,
the session still returns a result after exactly 3 iterations — the third
and final allowed iteration offers no tools and forces a plain-text
completion — with forced semantics and no failure. -/
theorem C3_forced_termination (env : AgentEnv) (query : String) (output_mode : String)
    (h : ∀ n msgs req, ∃ resp, env.call_with_tools n msgs req = .ok resp ∧
      resp.tool_calls ≠ [] ∧ ∀ tc ∈ resp.tool_calls, tc.name ≠ "done") :
    (run_reflect_agent env query 3 output_mode).result.iterations = 3 ∧
    (run_reflect_agent env query 3 output_mode).forced = true := by
  obtain ⟨r0, hc0, hne0, hnd0⟩ :=
    h (initial_state query).llm_calls (initial_state query).messages (0 == 0)
  obtain ⟨st1, h1⟩ := step_tools env output_mode 1 0 (initial_state query) r0 hc0 hne0 hnd0
  obtain ⟨r1, hc1, hne1, hnd1⟩ := h st1.llm_calls st1.messages (1 == 0)
  obtain ⟨st2, h2⟩ := step_tools env output_mode 0 1 st1 r1 hc1 hne1 hnd1
  have hrun : run_reflect_agent env query 3 output_mode = forced_final env st2 3 := by
    unfold run_reflect_agent
    rw [h1, h2, step_last]
  rw [hrun]
  exact ⟨rfl, rfl⟩

theorem C3_forced_termination_witness :
    (∀ n msgs req, ∃ resp, always_tools_env.call_with_tools n msgs req = .ok resp ∧
      resp.tool_calls ≠ [] ∧ ∀ tc ∈ resp.tool_calls, tc.name ≠ "done") ∧
    (run_reflect_agent always_tools_env "q" 3 "answer").result.iterations = 3 ∧
    (run_reflect_agent always_tools_env "q" 3 "answer").forced = true := by
  have hh : ∀ n msgs req, ∃ resp,
      always_tools_env.call_with_tools n msgs req = .ok resp ∧
      resp.tool_calls ≠ [] ∧ ∀ tc ∈ resp.tool_calls, tc.name ≠ "done" :=
    fun _ _ _ => ⟨{ tool_calls := [recall_call "c1" "q"] }, rfl, by simp, by decide⟩
  exact ⟨hh, C3_forced_termination always_tools_env "q" "answer" hh⟩

end Hindsight
